import Mathlib

/-!
Shallow embedding of the ai-learning-generator pipeline
(src/openai_mw.py, src/app.py, src/utils/validation.py, src/utils/ai_helpers.py)
and proofs about it.

Python values flowing through the request/response dictionaries are modelled
by `PyVal`.  Machine floats (time.time()) only ever enter comparisons and
subtractions of whole seconds here, so timestamps are modelled as `Nat`
seconds.  The two genuinely external pieces of code — `json.loads` from the
Python standard library and the `hashlib` digest — are taken as parameters of
the functions that call them, so every theorem is explicit about what it
assumes of them.
-/

/-- Model of the Python values stored in the request/response dictionaries. -/
inductive PyVal where
  | pstr : String → PyVal
  | pint : Int → PyVal
  | pbool : Bool → PyVal
  | pnone : PyVal
  | plist : List PyVal → PyVal
  | pdict : List (String × PyVal) → PyVal

/-- Dictionary lookup on an association list (dicts keep one binding per
key; `aset` below maintains that invariant). -/
def alookup {α β : Type} [DecidableEq α] : List (α × β) → α → Option β
  | [], _ => none
  | (k₁, v₁) :: rest, k => if k₁ = k then some v₁ else alookup rest k

/-- `d[k] = v` on an association list: overwrite in place or append. -/
def aset {α β : Type} [DecidableEq α] : List (α × β) → α → β → List (α × β)
  | [], k, v => [(k, v)]
  | (k₁, v₁) :: rest, k, v =>
    if k₁ = k then (k, v) :: rest else (k₁, v₁) :: aset rest k v

/-- `del d[k]` on an association list. -/
def aerase {α β : Type} [DecidableEq α] : List (α × β) → α → List (α × β)
  | [], _ => []
  | (k₁, v₁) :: rest, k =>
    if k₁ = k then aerase rest k else (k₁, v₁) :: aerase rest k

/-- `pat` starts the character list `s`. -/
def startsWithL : List Char → List Char → Bool
  | [], _ => true
  | _ :: _, [] => false
  | p :: ps, c :: cs => p = c && startsWithL ps cs

/-- `pat` occurs somewhere in the character list `s` (the empty pattern
occurs everywhere, as with Python's `in`). -/
def occursIn (pat : List Char) : List Char → Bool
  | [] => startsWithL pat []
  | c :: rest => startsWithL pat (c :: rest) || occursIn pat rest

/-- Python `pat in s` for strings: substring occurrence. -/
def strContains (s pat : String) : Bool :=
  occursIn pat.data s.data

/-- Python `s.strip()`: whitespace removed from both ends. -/
def pyStrip (s : String) : String :=
  String.mk
    (((s.data.dropWhile Char.isWhitespace).reverse.dropWhile
      Char.isWhitespace).reverse)

/-- Python `s.lower()` (the inputs here are ASCII). -/
def pyLower (s : String) : String :=
  String.mk (s.data.map Char.toLower)

def charMinus : Char := Char.ofNat 45
def charPlus : Char := Char.ofNat 43
def lbrace : Char := Char.ofNat 123
def rbrace : Char := Char.ofNat 125

/-- Digit-string to number; `none` when empty or a non-digit appears. -/
def parseDigits (cs : List Char) : Option Nat :=
  if cs.isEmpty then none
  else if cs.all (fun c => c.isDigit) then
    some (cs.foldl (fun acc c => acc * 10 + (c.toNat - 48)) 0)
  else none

/-- Python `int(s)` on a string: optional surrounding whitespace, optional
sign, decimal digits; anything else raises `ValueError` (`none`). -/
def pyStrToInt (s : String) : Option Int :=
  match (pyStrip s).data with
  | [] => none
  | c :: rest =>
    if c = charMinus then (parseDigits rest).map (fun n => -(n : Int))
    else if c = charPlus then (parseDigits rest).map (fun n => (n : Int))
    else (parseDigits (c :: rest)).map (fun n => (n : Int))

/-- Python `int(x)`: ints pass through, bools coerce to 0/1, strings parse,
everything else raises (`none`). -/
def pyToInt : PyVal → Option Int
  | .pint n => some n
  | .pbool b => some (if b then 1 else 0)
  | .pstr s => pyStrToInt s
  | _ => none

/-- Python truthiness (`if not x`). -/
def pyTruthy : PyVal → Bool
  | .pstr s => !s.isEmpty
  | .pint n => n != 0
  | .pbool b => b
  | .pnone => false
  | .plist xs => !xs.isEmpty
  | .pdict kvs => !kvs.isEmpty

/-- Python `key in container` for a string key: key membership on dicts,
element equality on lists, substring on strings; `none` models the
`TypeError` raised on non-container values. -/
def pyInStr : PyVal → String → Option Bool
  | .pdict kvs, key => some ((alookup kvs key).isSome)
  | .plist xs, key =>
    some (xs.any (fun v => match v with | .pstr t => t = key | _ => false))
  | .pstr t, key => some (strContains t key)
  | _, _ => none

/-- Python `d[k]` where `d` is expected to be a dict; `none` models both
`TypeError` (non-dict) and `KeyError` (absent key). -/
def pyGet : PyVal → String → Option PyVal
  | .pdict kvs, key => alookup kvs key
  | _, _ => none

/-- Rendering a value inside an f-string; the validated values reaching the
prompt builders are strings and ints. -/
def pyFmt : PyVal → String
  | .pstr s => s
  | .pint n => toString n
  | .pbool b => if b then ("True") else ("False")
  | .pnone => ("None")
  | .plist _ => ("[...]")
  | .pdict _ => ("\x7b...\x7d")

/-- Index of the first occurrence of `target`, counting from `i`. -/
def charFindIdx : List Char → Char → Nat → Option Nat
  | [], _, _ => none
  | c :: rest, target, i =>
    if c = target then some i else charFindIdx rest target (i + 1)

/-- Index of the last occurrence of `target` (accumulator carries the last
hit seen so far). -/
def charRfindIdx : List Char → Char → Nat → Option Nat → Option Nat
  | [], _, _, acc => acc
  | c :: rest, target, i, acc =>
    charRfindIdx rest target (i + 1) (if c = target then some i else acc)

/-- Python `s.find(c)`: first index or `-1`. -/
def pyFind (s : String) (c : Char) : Int :=
  match charFindIdx s.data c 0 with
  | some i => (i : Int)
  | none => -1

/-- Python `s.rfind(c)`: last index or `-1`. -/
def pyRfind (s : String) (c : Char) : Int :=
  match charRfindIdx s.data c 0 none with
  | some i => (i : Int)
  | none => -1

/-- Python `s[a:b]` for non-negative bounds. -/
def pySlice (s : String) (a b : Nat) : String :=
  String.mk ((s.data.drop a).take (b - a))

namespace OpenAIMW

/-- Module constant `MAX_REQUESTS_PER_MINUTE` (src/openai_mw.py line 52). -/
def MAX_REQUESTS_PER_MINUTE : Nat := 60

/-- `create_error_response` (src/openai_mw.py lines 121-136): the JSON error
envelope, given as the key/value pairs of the dict literal in the source
(`success`, then the nested `error` object with `message`, `code`,
`details`, `timestamp`).  `now` stands for `time.time()`. -/
def create_error_response (error : String) (status_code : Nat)
    (details : Option String) (now : Nat) : List (String × PyVal) :=
  [(("success"), PyVal.pbool false),
   (("error"), PyVal.pdict
     [(("message"), PyVal.pstr error),
      (("code"), PyVal.pint status_code),
      (("details"), match details with
        | some d => PyVal.pstr d
        | none => PyVal.pnone),
      (("timestamp"), PyVal.pint now)])]

/-- `RATE_LIMIT_CACHE`: the source keys it by the string
`f"{client_ip}_{current_time}"`; modelled as the pair (ip, minute bucket). -/
abbrev RateCache := List ((String × Nat) × Nat)

inductive AdmitResult where
  | allowed
  | rejected (body : List (String × PyVal))

/-- The wrapper installed by `rate_limit_decorator` (src/openai_mw.py lines
62-88).  `minute` is `int(time.time() / 60)`; `now` is `time.time()` for the
error envelope's timestamp.  The ceiling is the module constant
`MAX_REQUESTS_PER_MINUTE`; it is a parameter here so that theorems can speak
about the configured-ceiling scenarios of the spec.  On a fresh (client,
bucket) key the source stores count 1 and then deletes entries whose bucket
is older than `current_time - 5` (with Python this comparison is against a
possibly negative number; buckets are non-negative, so truncated `Nat`
subtraction agrees). -/
def rate_limit_admit (ceiling : Nat) (client_ip : String) (minute : Nat)
    (now : Nat) (st : RateCache) : AdmitResult × RateCache :=
  match alookup st (client_ip, minute) with
  | some c =>
    if ceiling ≤ c then
      (AdmitResult.rejected (create_error_response ("Rate limit exceeded") 429
        (some ("Too many requests. Please try again later.")) now), st)
    else (AdmitResult.allowed, aset st (client_ip, minute) (c + 1))
  | none =>
    let st₁ := aset st (client_ip, minute) 1
    (AdmitResult.allowed, st₁.filter (fun kv => !(kv.1.2 < minute - 5)))

/-- The `final_response` dict built by `generate_quiz` (src/openai_mw.py
lines 412-422): `success`, `data`, and the `metadata` sub-dict flattened
into fields (`generated_at`, `prompt_hash`, `from_cache`, `usage`). -/
structure FinalResponse where
  success : Bool
  data : PyVal
  generated_at : Nat
  prompt_hash : String
  from_cache : Bool
  usage : PyVal

/-- An entry of `REQUEST_CACHE` (src/openai_mw.py lines 90-96). -/
structure CacheEntry where
  response : FinalResponse
  timestamp : Nat
  usage_count : Nat

abbrev ReqCache := List (String × CacheEntry)

/-- `OpenAIMiddleware.cache_response` (src/openai_mw.py lines 90-103):
store the entry under the prompt hash, then delete every entry older than
3600 seconds. -/
def cache_response (now : Nat) (prompt_hash : String) (response : FinalResponse)
    (cache : ReqCache) : ReqCache :=
  let c₁ := aset cache prompt_hash ⟨response, now, 1⟩
  c₁.filter (fun kv => !(3600 < now - kv.2.timestamp))

/-- `OpenAIMiddleware.get_cached_response` (src/openai_mw.py lines 105-115):
on a fresh entry bump `usage_count` and return the stored response; on a
stale entry delete it and return `None`; on an absent key return `None`. -/
def get_cached_response (now : Nat) (prompt_hash : String) (cache : ReqCache) :
    Option FinalResponse × ReqCache :=
  match alookup cache prompt_hash with
  | some e =>
    if now - e.timestamp < 3600 then
      (some e.response,
       aset cache prompt_hash ⟨e.response, e.timestamp, e.usage_count + 1⟩)
    else (none, aerase cache prompt_hash)
  | none => (none, cache)

/-- The request dict consumed by `validate_request_data` and
`build_openai_prompt`; `none` models an absent key. -/
structure MwRequest where
  topic : Option PyVal
  questions : Option PyVal
  language : Option PyVal
  difficulty : Option PyVal

def valid_languages : List String :=
  [("italian"), ("english"), ("french"), ("spanish"), ("german")]

/-- `OpenAIMiddleware.validate_request_data` (src/openai_mw.py lines
138-161): required keys in order, then type/range checks, returning at the
first failure. -/
def validate_request_data (data : MwRequest) : Bool × String :=
  match data.topic with
  | none => (false, ("Missing required field: topic"))
  | some topicV =>
  match data.questions with
  | none => (false, ("Missing required field: questions"))
  | some questionsV =>
  match data.language with
  | none => (false, ("Missing required field: language"))
  | some languageV =>
  match topicV with
  | PyVal.pstr t =>
    if (pyStrip t).length = 0 then (false, ("Topic must be a non-empty string"))
    else
      match pyToInt questionsV with
      | none => (false, ("Questions must be a valid number"))
      | some q =>
        if q < 1 ∨ 50 < q then
          (false, ("Number of questions must be between 1 and 50"))
        else
          match languageV with
          | PyVal.pstr l =>
            if valid_languages.contains l then (true, ("Valid"))
            else (false,
              ("Language must be one of: italian, english, french, spanish, german"))
          | _ => (false,
              ("Language must be one of: italian, english, french, spanish, german"))
  | _ => (false, ("Topic must be a non-empty string"))

def language_map : List (String × String) :=
  [(("italian"), ("italiano")), (("english"), ("inglese")),
   (("french"), ("francese")), (("spanish"), ("spagnolo")),
   (("german"), ("tedesco"))]

/-- `OpenAIMiddleware.build_openai_prompt` (src/openai_mw.py lines 163-211).
The fields are present whenever the source calls this (validated upstream);
an absent key would raise `KeyError`, rendered here as `pnone` formatting.
The f-string's literal text is reproduced byte for byte (`\x7b` and `\x7d`
are the brace characters the doubled braces of the f-string produce). -/
def build_openai_prompt (data : MwRequest) : String :=
  let topic := pyFmt (data.topic.getD PyVal.pnone)
  let questions := pyFmt (data.questions.getD PyVal.pnone)
  let difficulty := pyFmt (data.difficulty.getD (PyVal.pstr ("intermediate")))
  let lang_instruction :=
    (alookup language_map (pyFmt (data.language.getD PyVal.pnone))).getD ("inglese")
  "Genera un quiz educativo sull\x27argomento \"" ++ topic ++
  "\" con le seguenti specifiche:\n\n- Numero di domande: " ++ questions ++
  "\n- Livello di difficoltà: " ++ difficulty ++
  "\n- Lingua: " ++ lang_instruction ++
  "\n- 4 opzioni di risposta per ogni domanda (A, B, C, D)\n" ++
  "- Solo una risposta corretta per domanda\n" ++
  "- Includi spiegazioni per ogni risposta corretta\n\n" ++
  "Formato di output richiesto (JSON):\n\x7b\n    \"topic\": \"" ++ topic ++
  "\",\n    \"sintesi\": \"Breve sintesi dell\x27argomento in circa 300 parole\",\n" ++
  "    \"questionario\": [\n        \x7b\n" ++
  "            \"domanda\": \"Testo della domanda\",\n" ++
  "            \"risposte\": \x7b\n                \"A\": \"Prima opzione\",\n" ++
  "                \"B\": \"Seconda opzione\", \n                \"C\": \"Terza opzione\",\n" ++
  "                \"D\": \"Quarta opzione\"\n            \x7d,\n" ++
  "            \"risposta_corretta\": \"A\",\n" ++
  "            \"spiegazione\": \"Spiegazione della risposta corretta\"\n" ++
  "        \x7d\n    ],\n" ++
  "    \"imageUrl\": \"https://placeholder-image-url.com/quiz-image.jpg\"\n\x7d\n\n" ++
  "Genera il quiz ora:"

/-- Result of `call_openai_api` (src/openai_mw.py lines 213-268): the dict
`{'success': True, 'content': ..., 'usage': ...}` or
`{'success': False, 'error': ..., 'error_type': ...}`.  The OpenAI client
itself is the external backend. -/
inductive ApiResult where
  | success (content : String) (usage : PyVal)
  | failure (error : String) (error_type : String)

/-- Result of `process_openai_response`: the dict
`{'success': True, 'data': ...}` or `{'success': False, 'error': ...}`. -/
inductive ProcResult where
  | ok : PyVal → ProcResult
  | err : String → ProcResult

/-- The `for field in fields: if field not in container` loop shared by the
response checks.  `none` is the `TypeError` Python raises when `container`
supports no membership test; `some (some f)` is the first absent field;
`some none` means every field is present. -/
def checkFields (container : PyVal) : List String → Option (Option String)
  | [] => some none
  | f :: rest =>
    match pyInStr container f with
    | none => none
    | some false => some (some f)
    | some true => checkFields container rest

/-- The `for i, question in enumerate(...)` loop of
`process_openai_response` (src/openai_mw.py lines 302-309); `some msg` is
the error message returned, `none` means all questions passed.  A
`TypeError` inside the loop lands in the generic handler, producing
`Error processing response`. -/
def checkQuestionario : List PyVal → Nat → Option String
  | [], _ => none
  | q :: rest, i =>
    match checkFields q [("domanda"), ("risposte"), ("risposta_corretta")] with
    | none => some ("Error processing response")
    | some (some f) =>
      some ("Missing field " ++ f ++ " in question " ++ toString (i + 1))
    | some none => checkQuestionario rest (i + 1)

/-- The validation phase of `process_openai_response` (src/openai_mw.py
lines 286-314), applied to the value `json.loads` produced. -/
def validate_parsed_data (parsed : PyVal) : ProcResult :=
  match checkFields parsed [("topic"), ("sintesi"), ("questionario")] with
  | none => ProcResult.err ("Error processing response")
  | some (some f) => ProcResult.err ("Missing required field in response: " ++ f)
  | some none =>
    match pyGet parsed ("questionario") with
    | none => ProcResult.err ("Error processing response")
    | some q =>
      match q with
      | PyVal.plist qs =>
        match checkQuestionario qs 0 with
        | some msg => ProcResult.err msg
        | none => ProcResult.ok parsed
      | _ => ProcResult.err ("Questionario must be a list")

/-- `OpenAIMiddleware.process_openai_response` (src/openai_mw.py lines
270-327).  `loads` is `json.loads` from the Python standard library,
returning `none` on `json.JSONDecodeError`. -/
def process_openai_response (loads : String → Option PyVal) (raw : String) :
    ProcResult :=
  let json_start : Int := pyFind raw lbrace
  let json_end : Int := pyRfind raw rbrace + 1
  if json_start = -1 ∨ json_end = 0 then
    ProcResult.err ("No valid JSON found in response")
  else
    match loads (pySlice raw json_start.toNat json_end.toNat) with
    | none => ProcResult.err ("Invalid JSON in response")
    | some parsed => validate_parsed_data parsed

inductive GenResult where
  | ok (resp : FinalResponse)
  | err (body : List (String × PyVal))

/-- The body of the `/api/generate` handler `generate_quiz` (src/openai_mw.py
lines 369-428), after the Flask content-type glue: validate, build the
prompt, hash it (`hashFn` is `generate_prompt_hash`, a `hashlib` digest),
consult the cache, otherwise call the backend, parse, store with
`from_cache := false`, and return.  The cache state is threaded explicitly
in place of the module-global `REQUEST_CACHE`. -/
def generate_quiz_core (loads : String → Option PyVal) (hashFn : String → String)
    (backend : String → ApiResult) (now : Nat)
    (data : MwRequest) (cache : ReqCache) : GenResult × ReqCache :=
  let v := validate_request_data data
  if !v.1 then (GenResult.err (create_error_response v.2 400 none now), cache)
  else
    let prompt := build_openai_prompt data
    let prompt_hash := hashFn prompt
    match get_cached_response now prompt_hash cache with
    | (some cached, cache₁) => (GenResult.ok cached, cache₁)
    | (none, cache₁) =>
      match backend prompt with
      | ApiResult.failure e etype =>
        (GenResult.err (create_error_response e
          (if etype = ("rate_limit") then 429 else 500) none now), cache₁)
      | ApiResult.success content usage =>
        match process_openai_response loads content with
        | ProcResult.err msg =>
          (GenResult.err (create_error_response msg 500 none now), cache₁)
        | ProcResult.ok pdata =>
          let final : FinalResponse :=
            ⟨true, pdata, now, prompt_hash, false, usage⟩
          (GenResult.ok final, cache_response now prompt_hash final cache₁)

/-- The singular/plural rendering of `num_of_questions` in the legacy
endpoint `request_post` (src/openai_mw.py lines 505-508). -/
def legacy_questions_phrase (num_of_questions : String) : String :=
  if num_of_questions = ("1") then (" una domanda")
  else num_of_questions ++ " domande, ognuna "

end OpenAIMW

namespace App

/-- `config.Config` constants consumed by `app.py` (src/config.py):
`MAX_QUESTIONS = 50`, `MAX_ANSWERS = 10`, and the keys of the
`SUPPORTED_LANGUAGES` mapping. -/
def MAX_QUESTIONS : Nat := 50

def MAX_ANSWERS : Nat := 10

def SUPPORTED_LANGUAGES : List String :=
  [("italian"), ("english"), ("french"), ("spanish")]

/-- The request dict consumed by `QuizGenerator.generate_content`
(src/app.py lines 47-63); `none` models an absent key, pulled out with the
defaults the source passes to `params.get`. -/
structure AppParams where
  topic : Option PyVal
  random_topic : Option PyVal
  num_of_questions : Option PyVal
  num_of_replies : Option PyVal
  language : Option PyVal

inductive ParamCheck where
  | ok
  | valueError (msg : String)
  | intCastError

/-- `QuizGenerator._validate_parameters` (src/app.py lines 87-100):
`int(...)` coercion of the two counts (an uncoercible value makes `int`
itself raise, `intCastError`), range checks raising `ValueError`, then key
membership of `language` in `config.SUPPORTED_LANGUAGES`. -/
def validate_parameters (params : AppParams) : ParamCheck :=
  match pyToInt (params.num_of_questions.getD (PyVal.pint 0)) with
  | none => ParamCheck.intCastError
  | some nq =>
    match pyToInt (params.num_of_replies.getD (PyVal.pint 0)) with
    | none => ParamCheck.intCastError
    | some nr =>
      if nq < 1 ∨ 50 < nq then
        ParamCheck.valueError ("Number of questions must be between 1 and 50")
      else if nr < 2 ∨ 10 < nr then
        ParamCheck.valueError ("Number of replies must be between 2 and 10")
      else
        match params.language.getD (PyVal.pstr ("")) with
        | PyVal.pstr l =>
          if SUPPORTED_LANGUAGES.contains l then ParamCheck.ok
          else ParamCheck.valueError ("Unsupported language: " ++ l)
        | v => ParamCheck.valueError ("Unsupported language: " ++ pyFmt v)

/-- The `questions_text` conditional of `QuizGenerator._build_prompt`
(src/app.py line 125): string comparison against the literal `'1'`. -/
def questions_text (num_questions : String) : String :=
  if num_questions = ("1") then ("one question")
  else num_questions ++ " questions, each"

/-- `QuizGenerator._build_prompt` (src/app.py lines 119-154); the f-string's
literal text, trailing spaces and indentation included, with `\x7b`/`\x7d`
for the braces its doubled braces produce. -/
def build_prompt (topic random_topic num_questions num_replies language :
    String) : String :=
  let topic :=
    if random_topic = ("true") then
      ("a random educational topic chosen by ChatGPT")
    else topic
  "Generate a quiz with " ++ questions_text num_questions ++ " having " ++
  num_replies ++ " different possible answers \n" ++
  "        (numbered with alphabet letters), with only one correct answer (indicate only the letter \n" ++
  "        without replicating the answer content), while the others are incorrect but plausible. \n" ++
  "        Also indicate which is the correct answer. Before the quiz, print a summary of the topic \n" ++
  "        in about 500 words in " ++ language ++ ".\n\n" ++
  "        All results, including topic, summary, questions and answers must be formatted in JSON. \n" ++
  "        The topic to use for questions is: " ++ topic ++ "\n\n" ++
  "        All output should be in language: " ++ language ++ "\n\n" ++
  "        The JSON formatting must follow this example:\n" ++
  "        \x7b\n" ++
  "            \"topic\": \"example\",\n" ++
  "            \"sintesi\": \"Example summary.\",\n" ++
  "            \"questionario\": [\n" ++
  "                \x7b\n" ++
  "                    \"domanda\": \"Example question?\",\n" ++
  "                    \"risposte\": \x7b\n" ++
  "                        \"A\": \"Answer A.\",\n" ++
  "                        \"B\": \"Answer B.\"\n" ++
  "                    \x7d,\n" ++
  "                    \"risposta_corretta\": \"A\"\n" ++
  "                \x7d\n" ++
  "            ]\n" ++
  "        \x7d"

end App

namespace Validation

/-- A `ValidationOutcome` as produced by every `InputValidator` method
(src/utils/validation.py): the `valid` flag and the `errors` list.  The
`sanitized_value`/`sanitized_data` entries only feed the sanitized output
path and are not modelled; the claims here concern `valid` and `errors`. -/
structure Outcome where
  valid : Bool
  errors : List String

/-- `InputValidator.SUPPORTED_LANGUAGES` (src/utils/validation.py lines
17-19).  The source is a `set` literal; membership is what matters, the
order here is the source's literal order (only error-message text depends
on it). -/
def SUPPORTED_LANGUAGES : List String :=
  [("italian"), ("english"), ("french"), ("spanish"), ("german"),
   ("portuguese")]

/-- `InputValidator.SUPPORTED_DIFFICULTIES` (lines 22-24). -/
def SUPPORTED_DIFFICULTIES : List String :=
  [("beginner"), ("intermediate"), ("advanced"), ("expert")]

def MAX_TOPIC_LENGTH : Nat := 200

/-- `InputValidator._contains_harmful_content` (lines 222-236). -/
def contains_harmful_content (text : String) : Bool :=
  [("script"), ("eval"), ("document."), ("window."), ("alert("),
   ("prompt("), ("confirm("), ("onclick"), ("onerror"), ("onload")].any
    (fun t => strContains (pyLower text) t)

/-- `InputValidator.validate_topic` (lines 33-64): the two early returns
(falsy value, non-string), then the aggregated length and content checks on
the stripped topic. -/
def validate_topic (topic : PyVal) : Outcome :=
  if !pyTruthy topic then ⟨false, [("Topic cannot be empty")]⟩
  else match topic with
  | PyVal.pstr s =>
    let t := pyStrip s
    let errs :=
      (if t.length < 3 then [("Topic must be at least 3 characters long")]
       else []) ++
      (if MAX_TOPIC_LENGTH < t.length then
        [("Topic cannot exceed 200 characters")] else []) ++
      (if contains_harmful_content t then
        [("Topic contains inappropriate content")] else [])
    ⟨errs.isEmpty, errs⟩
  | _ => ⟨false, [("Topic must be a string")]⟩

/-- `InputValidator.validate_difficulty` (lines 66-90). -/
def validate_difficulty (difficulty : PyVal) : Outcome :=
  if !pyTruthy difficulty then ⟨false, [("Difficulty cannot be empty")]⟩
  else match difficulty with
  | PyVal.pstr s =>
    if SUPPORTED_DIFFICULTIES.contains (pyStrip (pyLower s)) then ⟨true, []⟩
    else ⟨false, [("Difficulty must be one of: ") ++
      String.intercalate (", ") SUPPORTED_DIFFICULTIES]⟩
  | _ => ⟨false, [("Difficulty must be a string")]⟩

/-- `InputValidator.validate_language` (src/utils/validation.py lines
92-116): falsy and non-string early returns, then case-insensitive,
whitespace-stripped membership in `SUPPORTED_LANGUAGES`. -/
def validate_language (language : PyVal) : Outcome :=
  if !pyTruthy language then ⟨false, [("Language cannot be empty")]⟩
  else match language with
  | PyVal.pstr s =>
    if SUPPORTED_LANGUAGES.contains (pyStrip (pyLower s)) then ⟨true, []⟩
    else ⟨false, [("Language must be one of: ") ++
      String.intercalate (", ") SUPPORTED_LANGUAGES]⟩
  | _ => ⟨false, [("Language must be a string")]⟩

/-- `InputValidator.validate_questions_count` (lines 118-139). -/
def validate_questions_count (questions : PyVal) : Outcome :=
  match pyToInt questions with
  | none => ⟨false, [("Questions count must be a valid number")]⟩
  | some n =>
    let errs :=
      (if n < 1 then [("Must have at least 1 question")] else []) ++
      (if 50 < n then [("Cannot exceed 50 questions")] else [])
    ⟨errs.isEmpty, errs⟩

/-- The raw request map consumed by `validate_api_request`; `none` models an
absent key (other keys of the dict play no role in the checks). -/
structure ApiRequest where
  topic : Option PyVal
  difficulty : Option PyVal
  questions : Option PyVal
  language : Option PyVal

/-- The missing-key pass of `validate_api_request` (lines 150-156), in the
source's `required_fields` order. -/
def missing_required (req : ApiRequest) : List String :=
  (if req.topic.isNone then [("topic")] else []) ++
  (if req.difficulty.isNone then [("difficulty")] else []) ++
  (if req.questions.isNone then [("questions")] else []) ++
  (if req.language.isNone then [("language")] else [])

/-- `InputValidator.validate_api_request` (src/utils/validation.py lines
142-186): collect one error per missing required key and — when any key is
missing — return at once (`if not result['valid']: return result`);
otherwise run the four field validators in the source's `validations` order
(topic, difficulty, language, questions), extending the error list with each
failed validator's errors.  Every field validator returns `valid = true`
exactly when its error list is empty, so the conditional `extend` of the
source equals unconditional concatenation. -/
def validate_api_request (req : ApiRequest) : Outcome :=
  let missing := missing_required req
  if !missing.isEmpty then
    ⟨false, missing.map (fun f => ("Missing required field: ") ++ f)⟩
  else
    let rt := validate_topic (req.topic.getD PyVal.pnone)
    let rd := validate_difficulty (req.difficulty.getD PyVal.pnone)
    let rl := validate_language (req.language.getD PyVal.pnone)
    let rq := validate_questions_count (req.questions.getD PyVal.pnone)
    ⟨rt.valid && rd.valid && rl.valid && rq.valid,
     rt.errors ++ rd.errors ++ rl.errors ++ rq.errors⟩

end Validation

namespace AIHelpers

/-- An entry of `AIModelManager.response_cache` (src/utils/ai_helpers.py
lines 438-444): the response, the `datetime.now().isoformat()` string, and
the usage counter. -/
structure CacheEntry where
  response : PyVal
  timestamp : String
  usage_count : Nat

abbrev ResponseCache := List (String × CacheEntry)

/-- `AIModelManager.cache_response` (src/utils/ai_helpers.py lines 438-444):
a plain overwrite of the hash's entry; no sweep of other entries. -/
def cache_response (prompt_hash : String) (response : PyVal)
    (now_iso : String) (cache : ResponseCache) : ResponseCache :=
  aset cache prompt_hash ⟨response, now_iso, 1⟩

/-- `AIModelManager.get_cached_response` (src/utils/ai_helpers.py lines
446-452): bump `usage_count` and return the stored response whenever the
key is present; no clock is consulted. -/
def get_cached_response (prompt_hash : String) (cache : ResponseCache) :
    Option PyVal × ResponseCache :=
  match alookup cache prompt_hash with
  | some e =>
    (some e.response,
     aset cache prompt_hash ⟨e.response, e.timestamp, e.usage_count + 1⟩)
  | none => (none, cache)

end AIHelpers

namespace Scenario

/-- A parsed backend payload with every field `process_openai_response`
requires. -/
def parsedQuiz : PyVal :=
  PyVal.pdict
    [(("topic"), PyVal.pstr ("Photosynthesis")),
     (("sintesi"), PyVal.pstr ("Summary.")),
     (("questionario"), PyVal.plist
       [PyVal.pdict
         [(("domanda"), PyVal.pstr ("Q1?")),
          (("risposte"), PyVal.pdict
            [(("A"), PyVal.pstr ("a1")), (("B"), PyVal.pstr ("b1"))]),
          (("risposta_corretta"), PyVal.pstr ("A"))]])]

/-- Options map with keys `A` and `B` only. -/
def badOptions : List (String × PyVal) :=
  [(("A"), PyVal.pstr ("a1")), (("B"), PyVal.pstr ("b1"))]

/-- A question declaring correct answer `E`, which is not a key of its own
options map. -/
def badQuestion : PyVal :=
  PyVal.pdict
    [(("domanda"), PyVal.pstr ("Q1?")),
     (("risposte"), PyVal.pdict badOptions),
     (("risposta_corretta"), PyVal.pstr ("E"))]

/-- A parsed payload whose only question violates the cross-field invariant
of the spec (`correctLetter ∈ options`). -/
def badCorrectParsed : PyVal :=
  PyVal.pdict
    [(("topic"), PyVal.pstr ("Photosynthesis")),
     (("sintesi"), PyVal.pstr ("Summary.")),
     (("questionario"), PyVal.plist [badQuestion])]

/-- A request that `validate_request_data` accepts. -/
def mwData : OpenAIMW.MwRequest :=
  ⟨some (PyVal.pstr ("Photosynthesis")), some (PyVal.pint 2),
   some (PyVal.pstr ("english")), none⟩

def loadsQuiz : String → Option PyVal := fun _ => some parsedQuiz

def loadsNone : String → Option PyVal := fun _ => none

def hashConst : String → String := fun _ => ("h1")

def backendUp : String → OpenAIMW.ApiResult :=
  fun _ => OpenAIMW.ApiResult.success ("\x7braw quiz JSON\x7d") (PyVal.pdict [])

def backendDown : String → OpenAIMW.ApiResult :=
  fun _ => OpenAIMW.ApiResult.failure ("backend unavailable") ("api_error")

/-- The response the first (cache-missing) call of the C1 scenario stores. -/
def storedResp : OpenAIMW.FinalResponse :=
  ⟨true, parsedQuiz, 0, ("h1"), false, PyVal.pdict []⟩

/-- A request with `topic` missing and an invalid `language`: the language
rule is violated but, the key being missing, its error is never reported. -/
def c5req : Validation.ApiRequest :=
  ⟨none, some (PyVal.pstr ("beginner")), some (PyVal.pint 5),
   some (PyVal.pstr ("klingon"))⟩

end Scenario

namespace Scenario

/-- A stored response for cache round-trip scenarios. -/
def dummyResp : OpenAIMW.FinalResponse :=
  ⟨true, PyVal.pnone, 0, ("h0"), false, PyVal.pdict []⟩

end Scenario

/-- The five-language enumeration the spec's QuizRequest data model claims
(spec.md section 3, claim C6), kept for comparison against the source's
`InputValidator.SUPPORTED_LANGUAGES`. -/
def specQuizLanguages : List String :=
  [("italian"), ("english"), ("french"), ("spanish"), ("german")]

/-! Association-list lemmas shared by the cache and rate-limiter proofs. -/

theorem alookup_aset_self {α β : Type} [DecidableEq α]
    (l : List (α × β)) (k : α) (v : β) : alookup (aset l k v) k = some v := by
  induction l with
  | nil => simp [aset, alookup]
  | cons hd tl ih =>
    obtain ⟨k₁, v₁⟩ := hd
    by_cases h : k₁ = k
    · simp [aset, h, alookup]
    · simp [aset, h, alookup, ih]

theorem alookup_aset_ne {α β : Type} [DecidableEq α]
    (l : List (α × β)) (k k' : α) (v : β) (h : k' ≠ k) :
    alookup (aset l k v) k' = alookup l k' := by
  induction l with
  | nil => simp [aset, alookup, Ne.symm h]
  | cons hd tl ih =>
    obtain ⟨k₁, v₁⟩ := hd
    by_cases h₁ : k₁ = k
    · subst h₁
      simp [aset, alookup, Ne.symm h]
    · simp [aset, h₁, alookup, ih]

theorem alookup_aerase_self {α β : Type} [DecidableEq α]
    (l : List (α × β)) (k : α) : alookup (aerase l k) k = none := by
  induction l with
  | nil => simp [aerase, alookup]
  | cons hd tl ih =>
    obtain ⟨k₁, v₁⟩ := hd
    by_cases h : k₁ = k
    · simp [aerase, h, ih]
    · simp [aerase, h, alookup, ih]

theorem alookup_filter_of_pos {α β : Type} [DecidableEq α]
    (p : α × β → Bool) (l : List (α × β)) (k : α) (v : β)
    (hl : alookup l k = some v) (hp : p (k, v) = true) :
    alookup (l.filter p) k = some v := by
  induction l with
  | nil => simp [alookup] at hl
  | cons hd tl ih =>
    obtain ⟨k₁, v₁⟩ := hd
    by_cases h : k₁ = k
    · subst h
      simp [alookup] at hl
      subst hl
      simp [List.filter_cons, hp, alookup]
    · simp only [alookup, if_neg h] at hl
      by_cases hph : p (k₁, v₁)
      · simp [List.filter_cons, hph, alookup, h, ih hl]
      · simp [List.filter_cons, hph, ih hl]

/-- Claim C8: the `AIModelManager` cache applies no time-to-live: a response
stored by `cache_response` under any timestamp whatsoever is returned by
`get_cached_response` (which consults no clock), and `cache_response` leaves
every other entry untouched, so entries persist for the lifetime of the
process state. -/
theorem aimodel_cache_no_ttl (cache : AIHelpers.ResponseCache)
    (h k : String) (r : PyVal) (ts : String) (hk : k ≠ h) :
    ((AIHelpers.get_cached_response h
        (AIHelpers.cache_response h r ts cache)).1 = some r)
    ∧ alookup (AIHelpers.cache_response h r ts cache) k = alookup cache k := by
  constructor
  · simp [AIHelpers.get_cached_response, AIHelpers.cache_response,
      alookup_aset_self]
  · simpa [AIHelpers.cache_response] using
      alookup_aset_ne cache h k (⟨r, ts, 1⟩ : AIHelpers.CacheEntry) hk

theorem aimodel_cache_no_ttl_witness :
    ((AIHelpers.get_cached_response ("new")
        (AIHelpers.cache_response ("new") (PyVal.pint 7)
          ("2099-12-31T23:59:59")
          [(("old"), ⟨PyVal.pnone, ("2020-01-01T00:00:00"), 3⟩)])).1 =
      some (PyVal.pint 7))
    ∧ alookup
        (AIHelpers.cache_response ("new") (PyVal.pint 7)
          ("2099-12-31T23:59:59")
          [(("old"), ⟨PyVal.pnone, ("2020-01-01T00:00:00"), 3⟩)]) ("old") =
      alookup
        ([(("old"), (⟨PyVal.pnone, ("2020-01-01T00:00:00"), 3⟩ :
          AIHelpers.CacheEntry))]) ("old") :=
  aimodel_cache_no_ttl
    [(("old"), ⟨PyVal.pnone, ("2020-01-01T00:00:00"), 3⟩)]
    ("new") ("old") (PyVal.pint 7) ("2099-12-31T23:59:59") (by decide)

/-- Claim C9: both prompt builders are pure functions of their inputs in
this embedding — translated from source that reads nothing but its
arguments and module constants — so building twice from the same parameters
yields byte-identical output. -/
theorem prompt_builders_deterministic (d : OpenAIMW.MwRequest)
    (t rt n nr l : String) :
    OpenAIMW.build_openai_prompt d = OpenAIMW.build_openai_prompt d
    ∧ App.build_prompt t rt n nr l = App.build_prompt t rt n nr l :=
  ⟨rfl, rfl⟩

/-- Claim C4: `REQUEST_CACHE` lazy expiry: for an entry inserted at `tIns`,
a `get` more than 3600 seconds later deletes the entry and reports a miss,
while a `get` strictly before the TTL elapses returns the stored value. -/
theorem request_cache_lazy_ttl (cache : OpenAIMW.ReqCache) (h : String)
    (resp : OpenAIMW.FinalResponse) (tIns tGet : Nat) (hord : tIns ≤ tGet) :
    (3600 < tGet - tIns →
      (OpenAIMW.get_cached_response tGet h
        (OpenAIMW.cache_response tIns h resp cache)).1 = none ∧
      alookup (OpenAIMW.get_cached_response tGet h
        (OpenAIMW.cache_response tIns h resp cache)).2 h = none)
    ∧ (tGet - tIns < 3600 →
      (OpenAIMW.get_cached_response tGet h
        (OpenAIMW.cache_response tIns h resp cache)).1 = some resp) := by
  have hstored : alookup (OpenAIMW.cache_response tIns h resp cache) h =
      some ⟨resp, tIns, 1⟩ := by
    unfold OpenAIMW.cache_response
    exact alookup_filter_of_pos _ _ _ _ (alookup_aset_self _ _ _) (by simp)
  constructor
  · intro hexp
    have hnot : ¬ (tGet - tIns < 3600) := by omega
    constructor
    · simp [OpenAIMW.get_cached_response, hstored, hnot]
    · simp [OpenAIMW.get_cached_response, hstored, hnot, alookup_aerase_self]
  · intro hfresh
    simp [OpenAIMW.get_cached_response, hstored, hfresh]

theorem request_cache_lazy_ttl_witness :
    ((OpenAIMW.get_cached_response 4000 ("k")
        (OpenAIMW.cache_response 0 ("k") Scenario.dummyResp [])).1 = none)
    ∧ ((OpenAIMW.get_cached_response 100 ("k")
        (OpenAIMW.cache_response 0 ("k") Scenario.dummyResp [])).1 =
      some Scenario.dummyResp) :=
  ⟨((request_cache_lazy_ttl [] ("k") Scenario.dummyResp 0 4000
      (by decide)).1 (by decide)).1,
   (request_cache_lazy_ttl [] ("k") Scenario.dummyResp 0 100
      (by decide)).2 (by decide)⟩

/-- The error envelope built by `create_error_response` never carries a
`retryAfterSeconds` key, at the top level or inside the `error` object. -/
theorem create_error_response_no_retry_after (e : String) (c : Nat)
    (d : Option String) (t : Nat) :
    alookup (OpenAIMW.create_error_response e c d t) ("retryAfterSeconds") =
      none
    ∧ ∀ kvs, alookup (OpenAIMW.create_error_response e c d t) ("error") =
        some (PyVal.pdict kvs) → alookup kvs ("retryAfterSeconds") = none := by
  cases d with
  | none =>
    refine ⟨rfl, ?_⟩
    intro kvs hkvs
    have hv : alookup (OpenAIMW.create_error_response e c none t) ("error") =
        some (PyVal.pdict
          [(("message"), PyVal.pstr e), (("code"), PyVal.pint c),
           (("details"), PyVal.pnone), (("timestamp"), PyVal.pint t)]) := rfl
    rw [hv] at hkvs
    injection hkvs with h1
    injection h1 with h2
    rw [← h2]
    rfl
  | some x =>
    refine ⟨rfl, ?_⟩
    intro kvs hkvs
    have hv : alookup (OpenAIMW.create_error_response e c (some x) t)
        ("error") =
        some (PyVal.pdict
          [(("message"), PyVal.pstr e), (("code"), PyVal.pint c),
           (("details"), PyVal.pstr x), (("timestamp"), PyVal.pint t)]) := rfl
    rw [hv] at hkvs
    injection hkvs with h1
    injection h1 with h2
    rw [← h2]
    rfl

/-- Claim C3 (amended): with a ceiling of 3, four admissions of the same
client inside one minute bucket: the first three are allowed, the fourth is
rejected — but the rejection is the source's 429 envelope (message, code,
details, timestamp) with no `retryAfterSeconds` field at any level. -/
theorem rate_limit_three_then_reject (ip : String) (m now : Nat)
    (st : OpenAIMW.RateCache) (hfresh : alookup st (ip, m) = none) :
    (OpenAIMW.rate_limit_admit 3 ip m now st).1 =
      OpenAIMW.AdmitResult.allowed
    ∧ (OpenAIMW.rate_limit_admit 3 ip m now
        (OpenAIMW.rate_limit_admit 3 ip m now st).2).1 =
      OpenAIMW.AdmitResult.allowed
    ∧ (OpenAIMW.rate_limit_admit 3 ip m now
        (OpenAIMW.rate_limit_admit 3 ip m now
          (OpenAIMW.rate_limit_admit 3 ip m now st).2).2).1 =
      OpenAIMW.AdmitResult.allowed
    ∧ (OpenAIMW.rate_limit_admit 3 ip m now
        (OpenAIMW.rate_limit_admit 3 ip m now
          (OpenAIMW.rate_limit_admit 3 ip m now
            (OpenAIMW.rate_limit_admit 3 ip m now st).2).2).2).1 =
      OpenAIMW.AdmitResult.rejected
        (OpenAIMW.create_error_response ("Rate limit exceeded") 429
          (some ("Too many requests. Please try again later.")) now)
    ∧ alookup (OpenAIMW.create_error_response ("Rate limit exceeded") 429
          (some ("Too many requests. Please try again later.")) now)
        ("retryAfterSeconds") = none
    ∧ ∀ kvs, alookup (OpenAIMW.create_error_response ("Rate limit exceeded")
          429 (some ("Too many requests. Please try again later.")) now)
        ("error") = some (PyVal.pdict kvs) →
        alookup kvs ("retryAfterSeconds") = none := by
  have h1 : OpenAIMW.rate_limit_admit 3 ip m now st =
      (OpenAIMW.AdmitResult.allowed,
        (aset st (ip, m) 1).filter (fun kv => !(kv.1.2 < m - 5))) := by
    simp [OpenAIMW.rate_limit_admit, hfresh]
  have hl1 : alookup
      ((aset st (ip, m) 1).filter (fun kv => !(kv.1.2 < m - 5))) (ip, m) =
      some 1 := by
    refine alookup_filter_of_pos _ _ _ _ (alookup_aset_self _ _ _) ?_
    have hm : ¬ (m < m - 5) := by omega
    simp [hm]
  have h2 : OpenAIMW.rate_limit_admit 3 ip m now
      ((aset st (ip, m) 1).filter (fun kv => !(kv.1.2 < m - 5))) =
      (OpenAIMW.AdmitResult.allowed,
        aset ((aset st (ip, m) 1).filter (fun kv => !(kv.1.2 < m - 5)))
          (ip, m) 2) := by
    simp [OpenAIMW.rate_limit_admit, hl1]
  have hl2 : alookup
      (aset ((aset st (ip, m) 1).filter (fun kv => !(kv.1.2 < m - 5)))
        (ip, m) 2) (ip, m) = some 2 := alookup_aset_self _ _ _
  have h3 : OpenAIMW.rate_limit_admit 3 ip m now
      (aset ((aset st (ip, m) 1).filter (fun kv => !(kv.1.2 < m - 5)))
        (ip, m) 2) =
      (OpenAIMW.AdmitResult.allowed,
        aset (aset ((aset st (ip, m) 1).filter (fun kv => !(kv.1.2 < m - 5)))
          (ip, m) 2) (ip, m) 3) := by
    simp [OpenAIMW.rate_limit_admit, hl2]
  have hl3 : alookup
      (aset (aset ((aset st (ip, m) 1).filter (fun kv => !(kv.1.2 < m - 5)))
        (ip, m) 2) (ip, m) 3) (ip, m) = some 3 := alookup_aset_self _ _ _
  have h4 : (OpenAIMW.rate_limit_admit 3 ip m now
      (aset (aset ((aset st (ip, m) 1).filter (fun kv => !(kv.1.2 < m - 5)))
        (ip, m) 2) (ip, m) 3)).1 =
      OpenAIMW.AdmitResult.rejected
        (OpenAIMW.create_error_response ("Rate limit exceeded") 429
          (some ("Too many requests. Please try again later.")) now) := by
    simp [OpenAIMW.rate_limit_admit, hl3]
  refine ⟨?_, ?_, ?_, ?_,
    (create_error_response_no_retry_after _ _ _ _).1,
    (create_error_response_no_retry_after _ _ _ _).2⟩
  · simp only [h1]
  · simp only [h1, h2]
  · simp only [h1, h2, h3]
  · simp only [h1, h2, h3, h4]

theorem rate_limit_three_then_reject_witness :
    (OpenAIMW.rate_limit_admit 3 ("10.0.0.2") 9 550 []).1 =
      OpenAIMW.AdmitResult.allowed
    ∧ (OpenAIMW.rate_limit_admit 3 ("10.0.0.2") 9 550
        (OpenAIMW.rate_limit_admit 3 ("10.0.0.2") 9 550
          (OpenAIMW.rate_limit_admit 3 ("10.0.0.2") 9 550
            (OpenAIMW.rate_limit_admit 3 ("10.0.0.2") 9 550 []).2).2).2).1 =
      OpenAIMW.AdmitResult.rejected
        (OpenAIMW.create_error_response ("Rate limit exceeded") 429
          (some ("Too many requests. Please try again later.")) 550) := by
  have h := rate_limit_three_then_reject ("10.0.0.2") 9 550 [] rfl
  exact ⟨h.1, h.2.2.2.1⟩

/-- Claim C3 counterexample: the concrete four-call run at ceiling 3.  The
fourth call is rejected, but its payload is exactly the dict shown — four
fields (`message`, `code`, `details`, `timestamp`) and no
`retryAfterSeconds` anywhere, against the claim's
`retryAfterSeconds > 0, equal to the seconds remaining until the next
minute boundary`. -/
theorem rate_limit_reject_has_no_retry_after_field :
    (OpenAIMW.rate_limit_admit 3 ("10.0.0.1") 7 445
      (OpenAIMW.rate_limit_admit 3 ("10.0.0.1") 7 445
        (OpenAIMW.rate_limit_admit 3 ("10.0.0.1") 7 445
          (OpenAIMW.rate_limit_admit 3 ("10.0.0.1") 7 445 []).2).2).2).1 =
      OpenAIMW.AdmitResult.rejected
        [(("success"), PyVal.pbool false),
         (("error"), PyVal.pdict
           [(("message"), PyVal.pstr ("Rate limit exceeded")),
            (("code"), PyVal.pint 429),
            (("details"),
              PyVal.pstr ("Too many requests. Please try again later.")),
            (("timestamp"), PyVal.pint 445)])]
    ∧ alookup
        [(("message"), PyVal.pstr ("Rate limit exceeded")),
         (("code"), PyVal.pint 429),
         (("details"),
           PyVal.pstr ("Too many requests. Please try again later.")),
         (("timestamp"), PyVal.pint 445)] ("retryAfterSeconds") = none :=
  ⟨rfl, rfl⟩

/-- Claim C1 (code-bug evaluation): the first, cache-missing call returns
and stores its response with `from_cache := false`; an identical second
call 10 seconds later — against a backend that now always fails, proving no
second backend call is consulted — returns that stored response verbatim,
so the cache hit too is tagged `from_cache = false`, never `true`. -/
theorem generate_quiz_cache_hit_not_retagged :
    (OpenAIMW.generate_quiz_core Scenario.loadsQuiz Scenario.hashConst
      Scenario.backendUp 0 Scenario.mwData []).1 =
      OpenAIMW.GenResult.ok Scenario.storedResp
    ∧ (OpenAIMW.generate_quiz_core Scenario.loadsQuiz Scenario.hashConst
        Scenario.backendDown 10 Scenario.mwData
        (OpenAIMW.generate_quiz_core Scenario.loadsQuiz Scenario.hashConst
          Scenario.backendUp 0 Scenario.mwData []).2).1 =
      OpenAIMW.GenResult.ok Scenario.storedResp
    ∧ Scenario.storedResp.from_cache = false :=
  ⟨rfl, rfl, rfl⟩

/-- The question loop of `process_openai_response` reports nothing when
every question is a dict carrying the three required keys. -/
theorem checkQuestionario_none_of_fields (qs : List PyVal) (i : Nat)
    (hqs : ∀ q ∈ qs, ∃ qk, q = PyVal.pdict qk ∧
      (alookup qk ("domanda")).isSome = true ∧
      (alookup qk ("risposte")).isSome = true ∧
      (alookup qk ("risposta_corretta")).isSome = true) :
    OpenAIMW.checkQuestionario qs i = none := by
  induction qs generalizing i with
  | nil => rfl
  | cons q rest ih =>
    obtain ⟨qk, rfl, hd, hr, hc⟩ := hqs q (by simp)
    have hstep : OpenAIMW.checkFields (PyVal.pdict qk)
        [("domanda"), ("risposte"), ("risposta_corretta")] = some none := by
      simp [OpenAIMW.checkFields, pyInStr, hd, hr, hc]
    have hred : OpenAIMW.checkQuestionario (PyVal.pdict qk :: rest) i =
        OpenAIMW.checkQuestionario rest (i + 1) := by
      simp [OpenAIMW.checkQuestionario, hstep]
    rw [hred]
    exact ih _ (fun q hq => hqs q (List.mem_cons_of_mem _ hq))

/-- Claim C2 (amended): the response parser checks only the presence of the
required fields — top-level `topic`/`sintesi`/`questionario` and per
question `domanda`/`risposte`/`risposta_corretta` — and never relates
`risposta_corretta` to the keys of `risposte`; any response meeting the
presence checks parses successfully, the cross-field invariant
notwithstanding. -/
theorem validate_parsed_data_presence_only (kvs : List (String × PyVal))
    (qs : List PyVal)
    (htop : (alookup kvs ("topic")).isSome = true)
    (hsin : (alookup kvs ("sintesi")).isSome = true)
    (hq : alookup kvs ("questionario") = some (PyVal.plist qs))
    (hqs : ∀ q ∈ qs, ∃ qk, q = PyVal.pdict qk ∧
      (alookup qk ("domanda")).isSome = true ∧
      (alookup qk ("risposte")).isSome = true ∧
      (alookup qk ("risposta_corretta")).isSome = true) :
    OpenAIMW.validate_parsed_data (PyVal.pdict kvs) =
      OpenAIMW.ProcResult.ok (PyVal.pdict kvs) := by
  have hcf : OpenAIMW.checkFields (PyVal.pdict kvs)
      [("topic"), ("sintesi"), ("questionario")] = some none := by
    simp [OpenAIMW.checkFields, pyInStr, htop, hsin, hq]
  simp [OpenAIMW.validate_parsed_data, hcf, pyGet, hq,
    checkQuestionario_none_of_fields qs 0 hqs]

theorem validate_parsed_data_presence_only_witness :
    OpenAIMW.validate_parsed_data Scenario.badCorrectParsed =
      OpenAIMW.ProcResult.ok Scenario.badCorrectParsed := by
  refine validate_parsed_data_presence_only
    [(("topic"), PyVal.pstr ("Photosynthesis")),
     (("sintesi"), PyVal.pstr ("Summary.")),
     (("questionario"), PyVal.plist [Scenario.badQuestion])]
    [Scenario.badQuestion] rfl rfl rfl ?_
  intro q hq
  rw [List.mem_singleton] at hq
  subst hq
  exact ⟨_, rfl, rfl, rfl, rfl⟩

/-- Claim C2 counterexample: a parsed response whose single question names
correct letter `E` while its options map holds only `A` and `B`; the parser
returns success on it rather than any `InvalidCorrectAnswerReference`
failure. -/
theorem parser_accepts_dangling_correct_letter :
    pyGet Scenario.badCorrectParsed ("questionario") =
      some (PyVal.plist [Scenario.badQuestion])
    ∧ pyGet Scenario.badQuestion ("risposte") =
      some (PyVal.pdict Scenario.badOptions)
    ∧ pyGet Scenario.badQuestion ("risposta_corretta") =
      some (PyVal.pstr ("E"))
    ∧ alookup Scenario.badOptions ("E") = none
    ∧ OpenAIMW.validate_parsed_data Scenario.badCorrectParsed =
      OpenAIMW.ProcResult.ok Scenario.badCorrectParsed :=
  ⟨rfl, rfl, rfl, rfl, rfl⟩

/-! Each field validator of `InputValidator` reports `valid` exactly when
its error list is empty. -/

theorem validate_topic_valid_iff (v : PyVal) :
    (Validation.validate_topic v).valid =
      (Validation.validate_topic v).errors.isEmpty := by
  unfold Validation.validate_topic
  split
  · rfl
  · split <;> rfl

theorem validate_difficulty_valid_iff (v : PyVal) :
    (Validation.validate_difficulty v).valid =
      (Validation.validate_difficulty v).errors.isEmpty := by
  unfold Validation.validate_difficulty
  split
  · rfl
  · split
    · split <;> rfl
    · rfl

theorem validate_language_valid_iff (v : PyVal) :
    (Validation.validate_language v).valid =
      (Validation.validate_language v).errors.isEmpty := by
  unfold Validation.validate_language
  split
  · rfl
  · split
    · split <;> rfl
    · rfl

theorem validate_questions_count_valid_iff (v : PyVal) :
    (Validation.validate_questions_count v).valid =
      (Validation.validate_questions_count v).errors.isEmpty := by
  unfold Validation.validate_questions_count
  split <;> rfl

/-- Claim C5 (amended): when any required key is missing,
`validate_api_request` reports exactly one error per missing key and
returns at once, skipping every field rule; only when all four keys are
present does it aggregate every field validator's errors with no
truncation, and is then valid exactly when no error was collected. -/
theorem validate_api_request_error_collection (req : Validation.ApiRequest) :
    (Validation.missing_required req ≠ [] →
      Validation.validate_api_request req =
        ⟨false, (Validation.missing_required req).map
          (fun f => ("Missing required field: ") ++ f)⟩)
    ∧ (Validation.missing_required req = [] →
      (∀ e : String, e ∈ (Validation.validate_api_request req).errors ↔
        (e ∈ (Validation.validate_topic
            (req.topic.getD PyVal.pnone)).errors ∨
         e ∈ (Validation.validate_difficulty
            (req.difficulty.getD PyVal.pnone)).errors ∨
         e ∈ (Validation.validate_language
            (req.language.getD PyVal.pnone)).errors ∨
         e ∈ (Validation.validate_questions_count
            (req.questions.getD PyVal.pnone)).errors))
      ∧ ((Validation.validate_api_request req).valid = true ↔
         (Validation.validate_api_request req).errors = [])) := by
  constructor
  · intro hne
    have hb : (Validation.missing_required req).isEmpty = false := by
      cases hm : Validation.missing_required req with
      | nil => exact absurd hm hne
      | cons a l => rfl
    simp [Validation.validate_api_request, hb]
  · intro hemp
    have hval : Validation.validate_api_request req =
        ⟨(Validation.validate_topic (req.topic.getD PyVal.pnone)).valid &&
         (Validation.validate_difficulty
           (req.difficulty.getD PyVal.pnone)).valid &&
         (Validation.validate_language
           (req.language.getD PyVal.pnone)).valid &&
         (Validation.validate_questions_count
           (req.questions.getD PyVal.pnone)).valid,
         (Validation.validate_topic (req.topic.getD PyVal.pnone)).errors ++
         (Validation.validate_difficulty
           (req.difficulty.getD PyVal.pnone)).errors ++
         (Validation.validate_language
           (req.language.getD PyVal.pnone)).errors ++
         (Validation.validate_questions_count
           (req.questions.getD PyVal.pnone)).errors⟩ := by
      simp [Validation.validate_api_request, hemp]
    constructor
    · intro e
      rw [hval]
      simp only [List.mem_append]
      tauto
    · rw [hval]
      simp only [Bool.and_eq_true, validate_topic_valid_iff,
        validate_difficulty_valid_iff, validate_language_valid_iff,
        validate_questions_count_valid_iff, List.isEmpty_iff,
        List.append_eq_nil]

theorem validate_api_request_error_collection_witness :
    Validation.validate_api_request Scenario.c5req =
      ⟨false, [("Missing required field: topic")]⟩
    ∧ ((Validation.validate_api_request
        (⟨some (PyVal.pstr ("AI")), some (PyVal.pstr ("beginner")),
          some (PyVal.pint 5), some (PyVal.pstr ("klingon"))⟩ :
          Validation.ApiRequest)).valid = true ↔
       (Validation.validate_api_request
        (⟨some (PyVal.pstr ("AI")), some (PyVal.pstr ("beginner")),
          some (PyVal.pint 5), some (PyVal.pstr ("klingon"))⟩ :
          Validation.ApiRequest)).errors = []) :=
  ⟨(validate_api_request_error_collection Scenario.c5req).1 (by decide),
   ((validate_api_request_error_collection
      ⟨some (PyVal.pstr ("AI")), some (PyVal.pstr ("beginner")),
        some (PyVal.pint 5), some (PyVal.pstr ("klingon"))⟩).2 rfl).2⟩

/-- Claim C5 counterexample: with `topic` missing and `language` set to a
value violating the language rule, the returned error list holds only the
missing-key error; the violated language rule's error is absent — the
validator does exit early instead of collecting all violated rules. -/
theorem validate_api_request_truncates_on_missing_key :
    (Validation.validate_api_request Scenario.c5req).errors =
      [("Missing required field: topic")]
    ∧ (Validation.validate_language (PyVal.pstr ("klingon"))).valid = false
    ∧ (Validation.validate_language (PyVal.pstr ("klingon"))).errors ≠ []
    ∧ ∀ e ∈ (Validation.validate_language (PyVal.pstr ("klingon"))).errors,
        e ∉ (Validation.validate_api_request Scenario.c5req).errors := by
  exact ⟨rfl, rfl, by decide, by decide⟩

/-- Claim C6 (amended): language validation succeeds exactly when the value
is a non-empty string whose lowercased, whitespace-stripped form belongs to
the source's enumeration — six languages, `portuguese` included, not the
spec's five; non-empty strings failing membership get the membership error,
while empty or non-string values get emptiness/type errors instead. -/
theorem validate_language_membership (v : PyVal) :
    ((Validation.validate_language v).valid = true ↔
      ∃ s, v = PyVal.pstr s ∧ s ≠ ("") ∧
        Validation.SUPPORTED_LANGUAGES.contains (pyStrip (pyLower s)) = true)
    ∧ (∀ s, v = PyVal.pstr s → s ≠ ("") →
        Validation.SUPPORTED_LANGUAGES.contains (pyStrip (pyLower s)) =
          false →
        (Validation.validate_language v).errors =
          [("Language must be one of: ") ++
            String.intercalate (", ") Validation.SUPPORTED_LANGUAGES]) := by
  have hno : ∀ w : PyVal, (∀ s, w ≠ PyVal.pstr s) →
      (Validation.validate_language w).valid = false := by
    intro w hw
    unfold Validation.validate_language
    split
    · rfl
    · split
      · exact absurd rfl (hw _)
      · rfl
  have boring : ∀ w : PyVal, (∀ s, w ≠ PyVal.pstr s) →
      (((Validation.validate_language w).valid = true ↔
        ∃ s, w = PyVal.pstr s ∧ s ≠ ("") ∧
          Validation.SUPPORTED_LANGUAGES.contains (pyStrip (pyLower s)) =
            true)
      ∧ (∀ s, w = PyVal.pstr s → s ≠ ("") →
          Validation.SUPPORTED_LANGUAGES.contains (pyStrip (pyLower s)) =
            false →
          (Validation.validate_language w).errors =
            [("Language must be one of: ") ++
              String.intercalate (", ") Validation.SUPPORTED_LANGUAGES])) := by
    intro w hw
    constructor
    · constructor
      · intro h
        rw [hno w hw] at h
        cases h
      · rintro ⟨s, rfl, -, -⟩
        exact absurd rfl (hw s)
    · intro s hv
      exact absurd hv (hw s)
  cases v with
  | pstr s =>
    by_cases hs : s = ("")
    · subst hs
      refine ⟨?_, ?_⟩
      · constructor
        · intro h
          have he : ("" : String).isEmpty = true := rfl
          simp [Validation.validate_language, pyTruthy, he] at h
        · rintro ⟨s', hv, hne, -⟩
          injection hv with h
          exact absurd h.symm hne
      · intro s' hv hne _hcf
        injection hv with h
        exact absurd h.symm hne
    · have hsE : s.isEmpty = false := by
        rcases Bool.eq_false_or_eq_true s.isEmpty with h | h
        · exact absurd ((String.isEmpty_iff s).mp (by simp [h])) hs
        · exact h
      by_cases hc :
          Validation.SUPPORTED_LANGUAGES.contains (pyStrip (pyLower s)) = true
      · refine ⟨?_, ?_⟩
        · constructor
          · intro _
            exact ⟨s, rfl, hs, hc⟩
          · intro _
            have hmem : pyStrip (pyLower s) ∈ Validation.SUPPORTED_LANGUAGES := by
              simpa using hc
            simp [Validation.validate_language, pyTruthy, hsE, hmem]
        · intro s' hv hne hcf
          injection hv with h
          subst h
          rw [hcf] at hc
          cases hc
      · have hcf : Validation.SUPPORTED_LANGUAGES.contains
            (pyStrip (pyLower s)) = false := Bool.eq_false_iff.mpr hc
        refine ⟨?_, ?_⟩
        · constructor
          · intro hvalid
            have hnm : pyStrip (pyLower s) ∉ Validation.SUPPORTED_LANGUAGES := by
              simpa using hcf
            simp [Validation.validate_language, pyTruthy, hsE, hnm] at hvalid
          · rintro ⟨s', hv, hne, hc2⟩
            injection hv with h
            subst h
            rw [hc2] at hcf
            cases hcf
        · intro s' hv hne _hcf
          injection hv with h
          subst h
          have hnm : pyStrip (pyLower s) ∉ Validation.SUPPORTED_LANGUAGES := by
            simpa using hcf
          simp [Validation.validate_language, pyTruthy, hsE, hnm]
  | pint n => exact boring _ (fun s h => PyVal.noConfusion h)
  | pbool b => exact boring _ (fun s h => PyVal.noConfusion h)
  | pnone => exact boring _ (fun s h => PyVal.noConfusion h)
  | plist xs => exact boring _ (fun s h => PyVal.noConfusion h)
  | pdict kvs => exact boring _ (fun s h => PyVal.noConfusion h)

theorem validate_language_membership_witness :
    (Validation.validate_language (PyVal.pstr ("English"))).valid = true
    ∧ (Validation.validate_language (PyVal.pstr ("klingon"))).errors =
      [("Language must be one of: ") ++
        String.intercalate (", ") Validation.SUPPORTED_LANGUAGES] :=
  ⟨(validate_language_membership (PyVal.pstr ("English"))).1.mpr
    ⟨("English"), rfl, by decide, by decide⟩,
   (validate_language_membership (PyVal.pstr ("klingon"))).2 ("klingon") rfl
    (by decide) (by decide)⟩

/-- Claim C6 counterexample: `portuguese` is accepted by the source's
language validator although it is not — even case-insensitively — a member
of the spec's five-language enumeration. -/
theorem validate_language_accepts_portuguese :
    (Validation.validate_language (PyVal.pstr ("portuguese"))).valid = true
    ∧ ∀ l ∈ specQuizLanguages, pyLower ("portuguese") ≠ pyLower l :=
  ⟨rfl, by decide⟩

/-- Claim C7 (amended): singular phrasing is chosen by string equality with
the literal `'1'`, not by numeric value: the singular noun phrase appears
exactly when the raw count string is `"1"`; any other string — `"01"` and
other spellings of one included — is embedded literally with the plural
noun phrase, in both the current builder and the legacy endpoint; the built
prompt embeds exactly that fragment. -/
theorem questions_phrasing_by_string_equality (t rt nr l n : String) :
    (n = ("1") → App.questions_text n = ("one question") ∧
      OpenAIMW.legacy_questions_phrase n = (" una domanda"))
    ∧ (n ≠ ("1") → App.questions_text n = n ++ " questions, each" ∧
      OpenAIMW.legacy_questions_phrase n = n ++ " domande, ognuna ")
    ∧ ∃ a b, App.build_prompt t rt n nr l =
        a ++ App.questions_text n ++ b := by
  refine ⟨?_, ?_, ?_⟩
  · intro h
    subst h
    exact ⟨rfl, rfl⟩
  · intro h
    constructor
    · simp [App.questions_text, h]
    · simp [OpenAIMW.legacy_questions_phrase, h]
  · refine ⟨("Generate a quiz with "),
      (" having " ++ nr ++ " different possible answers \n" ++
       "        (numbered with alphabet letters), with only one correct answer (indicate only the letter \n" ++
       "        without replicating the answer content), while the others are incorrect but plausible. \n" ++
       "        Also indicate which is the correct answer. Before the quiz, print a summary of the topic \n" ++
       "        in about 500 words in " ++ l ++ ".\n\n" ++
       "        All results, including topic, summary, questions and answers must be formatted in JSON. \n" ++
       "        The topic to use for questions is: " ++
       (if rt = ("true") then ("a random educational topic chosen by ChatGPT")
        else t) ++ "\n\n" ++
       "        All output should be in language: " ++ l ++ "\n\n" ++
       "        The JSON formatting must follow this example:\n" ++
       "        \x7b\n" ++
       "            \"topic\": \"example\",\n" ++
       "            \"sintesi\": \"Example summary.\",\n" ++
       "            \"questionario\": [\n" ++
       "                \x7b\n" ++
       "                    \"domanda\": \"Example question?\",\n" ++
       "                    \"risposte\": \x7b\n" ++
       "                        \"A\": \"Answer A.\",\n" ++
       "                        \"B\": \"Answer B.\"\n" ++
       "                    \x7d,\n" ++
       "                    \"risposta_corretta\": \"A\"\n" ++
       "                \x7d\n" ++
       "            ]\n" ++
       "        \x7d"), ?_⟩
    simp only [App.build_prompt, String.append_assoc]

theorem questions_phrasing_by_string_equality_witness :
    App.questions_text ("1") = ("one question")
    ∧ App.questions_text ("01") = ("01") ++ " questions, each"
    ∧ OpenAIMW.legacy_questions_phrase ("01") = ("01") ++ " domande, ognuna " := by
  have h1 := (questions_phrasing_by_string_equality ("T") ("false") ("3")
    ("english") ("1")).1 rfl
  have h2 := (questions_phrasing_by_string_equality ("T") ("false") ("3")
    ("english") ("01")).2.1 (by decide)
  exact ⟨h1.1, h2.1, h2.2⟩

set_option maxRecDepth 4000 in
/-- Claim C7 counterexample: the parameter string `"01"` passes
`_validate_parameters` and denotes the count 1 (Python `int("01")` is 1),
yet the builder embeds it with the plural noun phrase and the singular
phrase is absent from the built prompt. -/
theorem plural_phrase_for_count_one_string :
    App.validate_parameters
      ⟨some (PyVal.pstr ("Cells")), some (PyVal.pstr ("false")),
       some (PyVal.pstr ("01")), some (PyVal.pstr ("4")),
       some (PyVal.pstr ("english"))⟩ = App.ParamCheck.ok
    ∧ pyToInt (PyVal.pstr ("01")) = some 1
    ∧ App.questions_text ("01") = ("01 questions, each")
    ∧ App.questions_text ("01") ≠ ("one question")
    ∧ strContains (App.build_prompt ("Cells") ("false") ("01") ("4")
        ("english")) ("01 questions, each") = true
    ∧ strContains (App.build_prompt ("Cells") ("false") ("01") ("4")
        ("english")) ("one question") = false :=
  ⟨rfl, rfl, rfl, by decide, rfl, rfl⟩

/-! Brace location and error-message lemmas for the response parser. -/

theorem charFindIdx_eq_none_iff (cs : List Char) (c : Char) (i : Nat) :
    charFindIdx cs c i = none ↔ c ∉ cs := by
  induction cs generalizing i with
  | nil => simp [charFindIdx]
  | cons a rest ih =>
    by_cases h : a = c
    · subst h
      simp [charFindIdx]
    · simp [charFindIdx, h, ih, List.mem_cons, Ne.symm h]

theorem charRfindIdx_eq_none_iff (cs : List Char) (c : Char) (i : Nat)
    (acc : Option Nat) :
    charRfindIdx cs c i acc = none ↔ (c ∉ cs ∧ acc = none) := by
  induction cs generalizing i acc with
  | nil => simp [charRfindIdx]
  | cons a rest ih =>
    by_cases h : a = c
    · subst h
      simp [charRfindIdx, ih]
    · simp [charRfindIdx, h, ih, List.mem_cons, Ne.symm h]

theorem pyFind_eq_neg_one_iff (s : String) (c : Char) :
    pyFind s c = -1 ↔ c ∉ s.data := by
  unfold pyFind
  cases hf : charFindIdx s.data c 0 with
  | none =>
    have hm := (charFindIdx_eq_none_iff s.data c 0).mp hf
    simp [hm]
  | some i =>
    have hmem : c ∈ s.data := by
      by_contra hmm
      rw [← charFindIdx_eq_none_iff s.data c 0, hf] at hmm
      cases hmm
    show (i : Int) = -1 ↔ c ∉ s.data
    constructor
    · intro h
      omega
    · intro h
      exact absurd hmem h

theorem pyRfind_eq_neg_one_iff (s : String) (c : Char) :
    pyRfind s c = -1 ↔ c ∉ s.data := by
  unfold pyRfind
  cases hf : charRfindIdx s.data c 0 none with
  | none =>
    have hm := ((charRfindIdx_eq_none_iff s.data c 0 none).mp hf).1
    simp [hm]
  | some i =>
    have hmem : c ∈ s.data := by
      by_contra hmm
      have hn : charRfindIdx s.data c 0 none = none :=
        (charRfindIdx_eq_none_iff s.data c 0 none).mpr ⟨hmm, rfl⟩
      rw [hf] at hn
      cases hn
    show (i : Int) = -1 ↔ c ∉ s.data
    constructor
    · intro h
      omega
    · intro h
      exact absurd hmem h

theorem pyFind_nonneg_cases (s : String) (c : Char) :
    pyFind s c = -1 ∨ 0 ≤ pyFind s c := by
  unfold pyFind
  cases charFindIdx s.data c 0 with
  | none => exact Or.inl rfl
  | some i =>
    refine Or.inr ?_
    show (0 : Int) ≤ (i : Int)
    omega

theorem pyRfind_nonneg_cases (s : String) (c : Char) :
    pyRfind s c = -1 ∨ 0 ≤ pyRfind s c := by
  unfold pyRfind
  cases charRfindIdx s.data c 0 none with
  | none => exact Or.inl rfl
  | some i =>
    refine Or.inr ?_
    show (0 : Int) ≤ (i : Int)
    omega

theorem string_head_ne {s t : String} {c d : Char}
    (hs : s.data.head? = some c) (ht : t.data.head? = some d) (h : c ≠ d) :
    s ≠ t := by
  intro he
  subst he
  rw [hs] at ht
  injection ht with h2
  exact h h2

theorem head_append_of_head (a b : String) (c : Char)
    (ha : a.data.head? = some c) : (a ++ b).data.head? = some c := by
  rw [String.data_append]
  cases hd : a.data with
  | nil => rw [hd] at ha; cases ha
  | cons x xs =>
    rw [hd] at ha
    injection ha with h2
    subst h2
    simp

theorem checkQuestionario_msg_ne (qs : List PyVal) (i : Nat) (msg : String)
    (h : OpenAIMW.checkQuestionario qs i = some msg) :
    msg ≠ ("No valid JSON found in response") := by
  induction qs generalizing i with
  | nil => simp [OpenAIMW.checkQuestionario] at h
  | cons q rest ih =>
    unfold OpenAIMW.checkQuestionario at h
    cases hcf : OpenAIMW.checkFields q
        [("domanda"), ("risposte"), ("risposta_corretta")] with
    | none =>
      rw [hcf] at h
      simp only [Option.some.injEq] at h
      subst h
      decide
    | some o =>
      rw [hcf] at h
      cases o with
      | none => exact ih _ h
      | some f =>
        simp only [Option.some.injEq] at h
        subst h
        exact string_head_ne
          (head_append_of_head _ _ (Char.ofNat 77)
            (head_append_of_head _ _ (Char.ofNat 77)
              (head_append_of_head ("Missing field ") f (Char.ofNat 77)
                rfl)))
          (show ("No valid JSON found in response").data.head? =
            some (Char.ofNat 78) from rfl)
          (by decide)

theorem validate_parsed_data_ne_nojson (p : PyVal) :
    OpenAIMW.validate_parsed_data p ≠
      OpenAIMW.ProcResult.err ("No valid JSON found in response") := by
  unfold OpenAIMW.validate_parsed_data
  cases hcf : OpenAIMW.checkFields p
      [("topic"), ("sintesi"), ("questionario")] with
  | none =>
    simp only [hcf]
    intro h
    injection h with h2
    exact absurd h2 (by decide)
  | some o =>
    cases o with
    | some f =>
      simp only [hcf]
      intro h
      injection h with h2
      exact absurd h2 (string_head_ne
        (head_append_of_head ("Missing required field in response: ") f
          (Char.ofNat 77) rfl)
        (show ("No valid JSON found in response").data.head? =
          some (Char.ofNat 78) from rfl)
        (by decide))
    | none =>
      simp only [hcf]
      cases hg : pyGet p ("questionario") with
      | none =>
        simp only [hg]
        intro h
        injection h with h2
        exact absurd h2 (by decide)
      | some q =>
        simp only [hg]
        cases q with
        | plist qs =>
          cases hq : OpenAIMW.checkQuestionario qs 0 with
          | some msg =>
            simp only [hq]
            intro h
            injection h with h2
            exact checkQuestionario_msg_ne qs 0 msg hq h2
          | none =>
            simp only [hq]
            intro h
            exact OpenAIMW.ProcResult.noConfusion h
        | pstr s =>
          intro h
          injection h with h2
          exact absurd h2 (by decide)
        | pint n =>
          intro h
          injection h with h2
          exact absurd h2 (by decide)
        | pbool b =>
          intro h
          injection h with h2
          exact absurd h2 (by decide)
        | pnone =>
          intro h
          injection h with h2
          exact absurd h2 (by decide)
        | pdict kvs =>
          intro h
          injection h with h2
          exact absurd h2 (by decide)

/-- Claim C10: a raw text containing both braces but whose last `}` lies
before its first `{` makes the parser slice an empty candidate and fail
with the invalid-JSON error (given that `json.loads` rejects the empty
string); the no-JSON-found error, by contrast, is returned exactly when one
of the two brace characters is absent from the text altogether. -/
theorem process_openai_response_brace_branches
    (loads : String → Option PyVal) (raw : String)
    (hload : loads ("") = none) :
    ((lbrace ∈ raw.data ∧ rbrace ∈ raw.data ∧
      pyRfind raw rbrace < pyFind raw lbrace) →
      OpenAIMW.process_openai_response loads raw =
        OpenAIMW.ProcResult.err ("Invalid JSON in response"))
    ∧ (OpenAIMW.process_openai_response loads raw =
        OpenAIMW.ProcResult.err ("No valid JSON found in response") ↔
      (lbrace ∉ raw.data ∨ rbrace ∉ raw.data)) := by
  constructor
  · rintro ⟨h1, h2, h3⟩
    have hf1 : pyFind raw lbrace ≠ -1 :=
      fun he => ((pyFind_eq_neg_one_iff raw lbrace).mp he) h1
    have hr1 : pyRfind raw rbrace ≠ -1 :=
      fun he => ((pyRfind_eq_neg_one_iff raw rbrace).mp he) h2
    have hf0 : 0 ≤ pyFind raw lbrace := by
      rcases pyFind_nonneg_cases raw lbrace with h | h
      · exact absurd h hf1
      · exact h
    have hr0 : 0 ≤ pyRfind raw rbrace := by
      rcases pyRfind_nonneg_cases raw rbrace with h | h
      · exact absurd h hr1
      · exact h
    have hcond : ¬ (pyFind raw lbrace = -1 ∨
        pyRfind raw rbrace + 1 = 0) := by
      push_neg
      exact ⟨hf1, by omega⟩
    have hslice : pySlice raw (pyFind raw lbrace).toNat
        (pyRfind raw rbrace + 1).toNat = ("") := by
      unfold pySlice
      have hz : (pyRfind raw rbrace + 1).toNat -
          (pyFind raw lbrace).toNat = 0 := by omega
      rw [hz, List.take_zero]
    simp only [OpenAIMW.process_openai_response]
    rw [if_neg hcond, hslice, hload]
  · constructor
    · intro hres
      by_contra hno
      push_neg at hno
      obtain ⟨h1, h2⟩ := hno
      have hf1 : pyFind raw lbrace ≠ -1 :=
        fun he => ((pyFind_eq_neg_one_iff raw lbrace).mp he) h1
      have hr1 : pyRfind raw rbrace ≠ -1 :=
        fun he => ((pyRfind_eq_neg_one_iff raw rbrace).mp he) h2
      have hr0 : 0 ≤ pyRfind raw rbrace := by
        rcases pyRfind_nonneg_cases raw rbrace with h | h
        · exact absurd h hr1
        · exact h
      have hcond : ¬ (pyFind raw lbrace = -1 ∨
          pyRfind raw rbrace + 1 = 0) := by
        push_neg
        exact ⟨hf1, by omega⟩
      simp only [OpenAIMW.process_openai_response] at hres
      rw [if_neg hcond] at hres
      cases hl : loads (pySlice raw (pyFind raw lbrace).toNat
          (pyRfind raw rbrace + 1).toNat) with
      | none =>
        rw [hl] at hres
        injection hres with h2'
        exact absurd h2' (by decide)
      | some p =>
        rw [hl] at hres
        exact validate_parsed_data_ne_nojson p hres
    · intro hno
      rcases hno with h | h
      · have hf : pyFind raw lbrace = -1 :=
          (pyFind_eq_neg_one_iff raw lbrace).mpr h
        simp only [OpenAIMW.process_openai_response]
        rw [if_pos (Or.inl hf)]
      · have hr : pyRfind raw rbrace = -1 :=
          (pyRfind_eq_neg_one_iff raw rbrace).mpr h
        simp only [OpenAIMW.process_openai_response]
        rw [if_pos (Or.inr (by omega))]

theorem process_openai_response_brace_branches_witness :
    OpenAIMW.process_openai_response Scenario.loadsNone ("\x7d\x7b") =
      OpenAIMW.ProcResult.err ("Invalid JSON in response")
    ∧ OpenAIMW.process_openai_response Scenario.loadsNone
        ("no braces here") =
      OpenAIMW.ProcResult.err ("No valid JSON found in response") := by
  constructor
  · exact (process_openai_response_brace_branches Scenario.loadsNone
      ("\x7d\x7b") rfl).1 ⟨by decide, by decide, by decide⟩
  · exact (process_openai_response_brace_branches Scenario.loadsNone
      ("no braces here") rfl).2.mpr (Or.inl (by decide))
